import Mathlib

/-!
Verification of the policy-gated code execution subsystem of the Sage
repository (src/tools/code_executor.py) against its natural-language
specification.

The Python code is shallowly embedded: Python strings are Lean `String`
(a wrapper around `List Char`, matching Python code-point semantics),
Python numbers used for the timeout are `ℚ` (every numeric literal the
code manipulates is exactly representable), fallible operations return
`Except`, and the ambient Python runtime (module resolution, pip, the
subprocess) is an explicit environment/oracle parameter.
-/

/-! ## String helpers mirroring Python primitives -/

/-- Boolean test that the list `p` occurs at the start of `l`
(Python `str.startswith`, used here on `List Char`). -/
def isPre : List Char → List Char → Bool
  | [], _ => true
  | _ :: _, [] => false
  | a :: as, b :: bs => a == b && isPre as bs

/-- Boolean test that `sub` occurs contiguously somewhere in the second
list (Python `sub in s` on `List Char`). -/
def listHasSub (sub : List Char) : List Char → Bool
  | [] => sub.isEmpty
  | c :: cs => isPre sub (c :: cs) || listHasSub sub cs

/-- Python `sub in s` membership test on strings. -/
def containsSub (s sub : String) : Bool :=
  listHasSub sub.data s.data

/-- Python `str.strip()`: remove whitespace from both ends. -/
def pyStrip (s : String) : String :=
  ⟨((s.data.dropWhile Char.isWhitespace).reverse.dropWhile Char.isWhitespace).reverse⟩

/-- Python `s.startswith(pre)`. -/
def pyStartsWith (s pre : String) : Bool :=
  isPre pre.data s.data

/-- Split a character list at every dot (Python `s.split(".")`:
always at least one part, empty parts kept). -/
def splitDot : List Char → List (List Char)
  | [] => [[]]
  | c :: cs =>
    if c == '.' then [] :: splitDot cs
    else match splitDot cs with
      | [] => [[c]]
      | p :: ps => (c :: p) :: ps

/-- Python `s.split(".")` on strings. -/
def pySplitDot (s : String) : List String :=
  (splitDot s.data).map fun l => ⟨l⟩

/-- Concatenate lists with a separator between consecutive elements. -/
def joinWith (sep : List Char) : List (List Char) → List Char
  | [] => []
  | [x] => x
  | x :: y :: xs => x ++ sep ++ joinWith sep (y :: xs)

/-- Python `sep.join(parts)`. -/
def pyJoin (sep : String) (parts : List String) : String :=
  ⟨joinWith sep.data (parts.map String.data)⟩

example : pySplitDot "a.b.c" = ["a", "b", "c"] := by decide
example : pySplitDot "" = [""] := by decide
example : pySplitDot "a..b" = ["a", "", "b"] := by decide
example : pyJoin "-" ["a", "b"] = "a-b" := by decide
example : pyStartsWith "mpl_toolkits.basemap.x" "mpl_toolkits" = true := by decide

/-! ## Result Assembler (execute_code, src/tools/code_executor.py lines 18-103) -/

/-- The timeout field of a request as received over the tool boundary:
either a value convertible by Python `float(...)` (modelled by its exact
rational value) or a non-convertible value such as a non-numeric string,
on which `float(...)` raises `ValueError`. -/
inductive TimVal
  | num (q : ℚ)
  | nonNumeric (s : String)
deriving DecidableEq

/-- Python `float(...)` applied to the timeout field (line 33):
returns the numeric value or raises `ValueError`. -/
def floatOf : TimVal → Except String ℚ
  | .num q => .ok q
  | .nonNumeric s => .error ("ValueError: could not convert string to float: " ++ s)

/-- One invocation request (`input_data` of `execute_code`): `code`
(default `""`), `timeout` (absent or a `TimVal`), `save_plots`
(default true). -/
structure Request where
  code : String
  timeout : Option TimVal
  save_plots : Bool
deriving DecidableEq

/-- Outcome of the child process as observed by `subprocess.run`
(lines 57-71): normal completion with captured streams and the number of
`plot_*.png` files present in the working directory afterwards, a
timeout (`subprocess.TimeoutExpired`), or a failure of the runner
itself (temporary directory, spawn or I/O error). -/
inductive RunOutcome
  | completed (stdout stderr : String) (plotFiles : Nat)
  | timedOut
  | failed (msg : String)
deriving DecidableEq

/-- Line 33: `min(float(input_data.get("timeout", 20)), 40)` - the upper
clamp applied to the requested timeout. There is no lower clamp. -/
def clampTimeout (q : ℚ) : ℚ := min q 40

/-- The truncation notice of line 95, appended verbatim. -/
def noticeStr : String := "\n... (output truncated, exceeded 10000 characters)"

/-- Lines 94-95 on `List Char`: if the output exceeds 10000 characters,
keep the first 10000 and append the notice. -/
def truncList (l : List Char) : List Char :=
  if 10000 < l.length then l.take 10000 ++ noticeStr.data else l

/-- Lines 94-95: `output[:10000] + "\n... (output truncated, ...)"`
when `len(output) > 10000`, else `output` unchanged. -/
def truncateOutput (s : String) : String :=
  ⟨truncList s.data⟩

/-- Lines 74-88: merge the captured streams and the plot notice.
`stdout` empty is replaced by `"(No output)"`; non-empty `stderr` is
appended under the `"\n\nErrors:\n"` separator; when plots were
requested and at least one `plot_*.png` file is present, the count
notice is appended. -/
def processOutput (stdout stderr : String) (plots : Nat) (sp : Bool) : String :=
  let base := if stdout ≠ "" then pyStrip stdout else "(No output)"
  let withErr := if stderr ≠ "" then base ++ "\n\nErrors:\n" ++ pyStrip stderr else base
  if sp && decide (0 < plots) then
    withErr ++ "\n\n" ++ toString plots ++ " plot(s) were generated."
  else withErr

/-- Lines 18-103: the whole `execute_code` entry point. The child
process (everything inside the `with tempfile.TemporaryDirectory()`
block that touches the OS) is abstracted by the oracle `run`, which
receives the effective timeout. A `ValueError` from the timeout
conversion (line 33) happens before the guarded `try` block and
escapes as `.error`; every other path returns `.ok (content, error?)`
exactly as the source maps outcomes (lines 93-103). -/
def execute_code (req : Request) (run : ℚ → RunOutcome) :
    Except String (String × Option String) :=
  let code := pyStrip req.code
  match floatOf (req.timeout.getD (.num 20)) with
  | .error e => .error e
  | .ok rawT =>
    let timeout := clampTimeout rawT
    if code = "" then .ok ("Error: No code provided to execute.", none)
    else
      match run timeout with
      | .completed out err plots =>
          .ok (truncateOutput (processOutput out err plots req.save_plots), none)
      | .timedOut => .ok ("Error: Code execution timed out.", none)
      | .failed msg => .ok ("", some ("Error executing code: " ++ msg))

/-- Mirror of the control flow of lines 40-71: the temporary directory
is created and the child process spawned exactly when the timeout
conversion succeeded and the stripped code is non-empty. -/
def execute_code_spawns (req : Request) : Bool :=
  match floatOf (req.timeout.getD (.num 20)) with
  | .error _ => false
  | .ok _ => pyStrip req.code ≠ ""

example : pyStrip "  \n " = "" := by decide
example : pyStrip " x y " = "x y" := by decide
example : noticeStr.length = 50 := by decide
example : containsSub "abcdef" "cde" = true := by decide
example : containsSub "abcdef" "cf" = false := by decide

/-! ## Script Synthesizer: the synthesized sandbox program
(_create_sandbox_script, src/tools/code_executor.py lines 106-558) -/

/-- Line 230: `enable_file_write = True`. The write guard over
`builtins.open` is installed only when this is `False` (lines 437-439),
so in the default configuration it is not installed. -/
def enable_file_write : Bool := true

/-- Lines 111-227: the allow-list of top-level packages
(`ALLOWED_PACKAGES` in the synthesized program). -/
def ALLOWED_PACKAGES : List String :=
  ["abc", "api", "astroid", "asttokens", "babel", "backports_abc",
   "brotli", "brotlicffi", "certifi", "chardet", "charset_normalizer",
   "codecs", "collections", "colorama", "comm", "cPickle", "ctags",
   "cycler", "cython", "Cython", "datetime", "dateutil", "decorator",
   "defusedxml", "docrepr", "docutils", "executing", "fontTools",
   "functools", "genericpath", "geopandas", "gi", "idna", "importlib",
   "io", "IPython", "ipywidgets", "jedi", "jinja2", "json",
   "kiwisolver", "Levenshtein", "logging", "markupsafe", "matplotlib",
   "mimetypes", "mpl_toolkits", "mpl_toolkits.basemap", "msvcrt",
   "networkx", "nt", "ntpath", "numpy", "openpyxl", "os", "packaging",
   "pandas", "parso", "pathlib", "patsy", "PIL", "pickle5", "plotly",
   "png", "posixpath", "prompt_toolkit", "pure_eval", "pyarrow",
   "pydantic", "pygments", "pyparsing", "pyproj", "PyQt5", "PyQt6",
   "PySide2", "PySide6", "pytz", "qrcode", "random", "rapidfuzz", "re",
   "requests", "runpy", "scikits", "scipy", "seaborn", "shapely",
   "simplejson", "six", "sklearn", "sksparse", "socks", "sphinx",
   "stack_data", "stat", "statsmodels", "svgwrite", "sympy", "tabulate",
   "textwrap", "tkinter", "tqdm", "traitlets", "typing",
   "typing_extensions", "uarray", "urllib2", "urllib3", "wcwidth",
   "weakref", "winreg", "wx", "zipimport", "zlib", "zstandard"]

/-- Lines 315-324: `PACKAGE_NAME_OVERRIDES`, public import name to pip
package name. -/
def PACKAGE_NAME_OVERRIDES : List (String × String) :=
  [("bs4", "beautifulsoup4"),
   ("PIL", "Pillow"),
   ("yaml", "PyYAML"),
   ("scikits.umfpack", "scikit-umfpack"),
   ("sksparse.cholmod", "scikit-sparse"),
   ("png", "pypng"),
   ("mpl_toolkits.basemap", "basemap"),
   ("mpl_toolkits", "matplotlib")]

/-- Python `PACKAGE_NAME_OVERRIDES.get(n, n)` (lines 368-369). -/
def lookupOverride (n : String) : String :=
  (PACKAGE_NAME_OVERRIDES.lookup n).getD n

/-- Lines 384-393: platform-only or legacy modules exempted from
auto-installation. -/
def install_exceptions : List String :=
  ["nt", "winreg", "msvcrt", "cPickle", "pickle5", "urllib2",
   "scikits", "sksparse"]

/-- Result of `importlib.util.find_spec` for one name, as the ambient
runtime answers it: it may raise `ModuleNotFoundError` (the only
exception the code catches), return `None`, or return a spec whose
`origin` is `None` or a string. -/
inductive FindSpec
  | raisesMNF
  | notFound
  | found (origin : Option String)

/-- The ambient Python runtime seen by the synthesized program:
`sys.builtin_module_names` (line 242), `os.path.dirname(os.__file__)`
(line 243), the behaviour of `importlib.util.find_spec`, and the
console text printed by a pip install attempt (`install_package`,
lines 281-311, whose output depends on the network and on pip). -/
structure PyEnv where
  builtinModules : List String
  stdlibPath : String
  findSpec : String → FindSpec
  pipLog : String → String → String

/-- Lines 255-278: heuristic test that a package is part of the
standard library. Underscore-prefixed names are always treated as
standard; otherwise the name must be a built-in or resolve to a spec
whose origin is under the standard-library path, is the literal
`"built-in"`, or is a `/lib/python` path outside site/dist-packages.
`ModuleNotFoundError` from `find_spec` is caught and yields `False`. -/
def is_standard_library (env : PyEnv) (package_name : String) : Bool :=
  if pyStartsWith package_name "_" then true
  else if env.builtinModules.contains package_name then true
  else match env.findSpec package_name with
    | .raisesMNF => false
    | .notFound => false
    | .found none => false
    | .found (some origin) =>
        pyStartsWith origin env.stdlibPath || origin == "built-in" ||
        (!(containsSub origin "site-packages") &&
         !(containsSub origin "dist-packages") &&
         containsSub origin "/lib/python")

/-- The standard-library test as the spec describes it, stated in the
spec's own words for comparison with the code's `is_standard_library`
(section 4.2: "part of the language's own standard library (detected
heuristically: built-in name, or resolved file path under the
standard-library install location)"). It has no underscore rule: a
name qualifies only through the built-in list or its resolved path. -/
def spec_standard_library (env : PyEnv) (package_name : String) : Bool :=
  env.builtinModules.contains package_name ||
    match env.findSpec package_name with
    | .found (some origin) => pyStartsWith origin env.stdlibPath
    | _ => false

/-- Lines 327-335: derive the top-level package of a dotted module
name, with the two explicit `mpl_toolkits` special cases. -/
def get_top_level_package (name : String) : String :=
  if pyStartsWith name "mpl_toolkits.basemap" then "mpl_toolkits.basemap"
  else if pyStartsWith name "mpl_toolkits" then "matplotlib"
  else ((pySplitDot name).headD "")

/-- Lines 338-344: a package counts as installed when `find_spec`
returns a spec; `ModuleNotFoundError` yields `False`. -/
def is_package_installed (env : PyEnv) (package_name : String) : Bool :=
  match env.findSpec package_name with
  | .found _ => true
  | _ => false

/-- Python `pkg.rsplit(".", k)[0]`: everything before the last `k`
dot-separated components (the whole string when `k = 0`, the first
component when `k` is at least the number of dots). -/
def rsplitHead (s : String) (k : Nat) : String :=
  let parts := pySplitDot s
  if parts.length ≤ k then parts.headD ""
  else pyJoin "." (parts.take (parts.length - k))

example : rsplitHead "a.b.c" 1 = "a.b" := by decide
example : rsplitHead "a.b.c" 0 = "a.b.c" := by decide
example : rsplitHead "a.b" 5 = "a" := by decide

/-- Lines 357-363: resolution of relative imports inside
`secure_import`. The globals dictionary is modelled by its only
consulted content: `none` when the dictionary is absent, empty, or has
no `__package__` key; `some none` when `__package__` is present but
`None`; `some (some pkg)` when it is the string `pkg`. -/
def relImportName (name : String) (level : Nat) (gpkg : Option (Option String)) : String :=
  if 0 < level then
    match gpkg with
    | some (some pkg) =>
        if pkg ≠ "" then rsplitHead pkg (level - 1) ++ "." ++ name else name
    | _ => name
  else name

/-- Text printed by Python `print(line)`: the line plus a newline,
appended to the stream the print targets. -/
def pr (line : String) : String := line ++ "\n"

/-- What one step of the sandbox wrote to the captured streams
(`sys.stdout` and `sys.stderr`, both redirected to in-memory buffers
at lines 417-421). -/
structure PrintLog where
  out : String
  err : String
deriving DecidableEq

/-- How one call of `secure_import` ends: `loaded name` when it calls
`original_import(name, ...)`, `returnedNone` on the two early-return
paths (empty top-level name, `org.python.core`), or `blocked` when it
raises `ImportError("Blocked import: ...")` (line 408). -/
inductive ImportResult
  | loaded (name : String)
  | returnedNone
  | blocked (packageName fromName : String)
deriving DecidableEq

/-- Line 407 diagnostic, printed (to the captured stdout) just before
the `ImportError` is raised. -/
def securityDiag (package_name name : String) : String :=
  "SecurityError: Import of \x27" ++ package_name ++ "\x27 (from \x27" ++
    name ++ "\x27) is not allowed"

/-- Message of the `ImportError` raised at line 408. -/
def blockedImportMsg (package_name name : String) : String :=
  "Blocked import: \x27" ++ package_name ++ "\x27 (from \x27" ++ name ++ "\x27)"

/-- Lines 348-408: the custom import hook installed over
`builtins.__import__` (line 412). It resolves relative imports,
derives the top-level package, and then: warns and returns `None` on
an empty top-level name (the source also prints the globals dictionary
in that warning); always allows the standard library; allows
allow-listed packages, first attempting a pip install (whose console
output is the environment's) when the package is absent and not
install-exempt; returns `None` for `org.python.core`; and otherwise
prints the security diagnostic and raises
`ImportError("Blocked import: ...")`. -/
def secure_import (env : PyEnv) (name : String) (level : Nat)
    (gpkg : Option (Option String)) : PrintLog × ImportResult :=
  let rel := relImportName name level gpkg
  let package_name := get_top_level_package rel
  let pip_package_name := lookupOverride package_name
  let pip_full_name := lookupOverride name
  if package_name = "" then
    (⟨pr "Import warning: Empty package name detected in import.", ""⟩, .returnedNone)
  else if is_standard_library env package_name then
    (⟨"", ""⟩, .loaded name)
  else if ALLOWED_PACKAGES.contains package_name then
    let instOut :=
      if !(is_package_installed env package_name) &&
         !(install_exceptions.contains package_name) then
        pr ("Package \x27" ++ package_name ++ "\x27 not found. Attempting to install...") ++
          env.pipLog pip_package_name
            (pyJoin "-" ((pySplitDot pip_full_name).take 2))
      else ""
    (⟨instOut, ""⟩, .loaded name)
  else if name = "org.python.core" then
    (⟨"", ""⟩, .returnedNone)
  else
    (⟨pr (securityDiag package_name name), ""⟩, .blocked package_name name)

/-! ## The open guard (lines 424-439) -/

/-- Line 431: the mode strings that `safe_open` refuses: a non-empty
mode containing `w`, `a` or `+`. -/
def isWriteMode (mode : String) : Bool :=
  mode ≠ "" && (containsSub mode "w" || containsSub mode "a" || containsSub mode "+")

/-- Effect of one call to an open entry point: whether a usable file
handle is returned, what was printed to the captured stdout, and
whether a file may be created on disk. -/
structure OpenEffect where
  handleReturned : Bool
  out : String
  fileCreated : Bool
deriving DecidableEq

/-- Modelled from Python's built-in `open` semantics (the
`original_open` of line 424): returns a handle, prints nothing, and
creates the file when the mode contains `w`, `a` or `x`. -/
def original_open (file mode : String) : OpenEffect :=
  { handleReturned := true
    out := ""
    fileCreated := containsSub mode "w" || containsSub mode "a" || containsSub mode "x" }

/-- Lines 427-434: `safe_open` refuses write, append and read-write
modes (prints the security diagnostic and returns `None`, so no handle
and no file), and otherwise defers to the original open. -/
def safe_open (file mode : String) : OpenEffect :=
  if isWriteMode mode then
    { handleReturned := false
      out := pr "SecurityError: Writing to files is not allowed"
      fileCreated := false }
  else original_open file mode

/-- Lines 437-439: the open entry point in force while user code runs:
`safe_open` only when `ENABLE_FILE_WRITE` is false, else the built-in
`open` unchanged. -/
def sandboxOpen : String → String → OpenEffect :=
  if !enable_file_write then safe_open else original_open

example : (sandboxOpen "f.txt" "w").handleReturned = true := by decide
example : (safe_open "f.txt" "w").handleReturned = false := by decide
example : (secure_import ⟨[], "/usr/lib/python3.11", fun _ => .notFound, fun _ _ => ""⟩
    "evilnet" 0 none).2 = .blocked "evilnet" "evilnet" := by decide

/-! ## The guarded run (main, lines 510-552 of the synthesized program) -/

/-- How the caller-supplied code block terminates, together with what
it printed to the captured stdout and stderr up to that point:
normal completion; an exception deriving from `Exception` (the only
class the `except` clause of line 516 catches), with its class name
and message; or a `BaseException` that does not derive from
`Exception`, such as the `SystemExit` raised by `exit()` or
`sys.exit()`, or a `KeyboardInterrupt`. -/
inductive UserRun
  | normal (out err : String)
  | raisesExc (ename emsg : String) (out err : String)
  | raisesBase (ename : String) (out err : String)
deriving DecidableEq

/-- Captured stdout written by the body (lines 512-518): the user
output, plus - when an `Exception` was caught - the
`"Error: <kind>: <message>"` summary of line 517. A non-`Exception`
`BaseException` propagates, so only the output already printed
remains. -/
def bodyOut : UserRun → String
  | .normal o _ => o
  | .raisesExc n m o _ => o ++ pr ("Error: " ++ n ++ ": " ++ m)
  | .raisesBase _ o _ => o

/-- Captured stderr written by the body: the user error output, plus
the full traceback (`traceback.print_exc(file=sys.stderr)`, line 518,
whose exact text `tb` is the runtime's) when an `Exception` was
caught. -/
def bodyErr (tb : String) : UserRun → String
  | .normal _ e => e
  | .raisesExc _ _ _ e => e ++ tb
  | .raisesBase _ _ e => e

/-- True exactly when the termination is a `BaseException` that the
`except Exception` clause does not catch. -/
def isBaseInterrupt : UserRun → Bool
  | .raisesBase _ _ _ => true
  | _ => false

/-- State of the process after `main()` as far as the claims observe
it: whether the footer (lines 533-552) ran, whether each of
`sys.stdout`, `sys.stderr`, `builtins.__import__` and `builtins.open`
is (again) the original, what the footer printed to the real stdout,
and the contents of the two capture buffers. -/
structure SandboxResult where
  reachedFooter : Bool
  stdoutIsOriginal : Bool
  stderrIsOriginal : Bool
  importIsOriginal : Bool
  openIsOriginal : Bool
  emitted : String
  capturedOut : String
  capturedErr : String
deriving DecidableEq

/-- Lines 510-552: one run of `main()` in the synthesized program.
`sp` is `save_plots`; `headerOut` is whatever the header printed to
the captured stdout after redirection (matplotlib initialization
messages); `tb` is the traceback text; `plotsSaved` the files saved by
`save_current_figures` (its own failures are caught inside the plot
block, lines 524-529, so the block never throws past itself).
A `BaseException` from the user code is caught by no handler: the plot
block and the footer are skipped, nothing is printed to the real
stdout, the streams stay redirected, the import hook stays installed,
and `builtins.open` stays whatever the header made it (the original
unless `ENABLE_FILE_WRITE` was false). Otherwise the footer runs:
it reads both buffers, restores all four entry points, prints the
captured output to the real stdout and, when non-empty, the captured
error text after it (also to the real stdout). -/
def runSandbox (sp : Bool) (headerOut : String) (u : UserRun) (tb : String)
    (plotsSaved : List String) : SandboxResult :=
  if isBaseInterrupt u then
    { reachedFooter := false
      stdoutIsOriginal := false
      stderrIsOriginal := false
      importIsOriginal := false
      openIsOriginal := enable_file_write
      emitted := ""
      capturedOut := headerOut ++ bodyOut u
      capturedErr := bodyErr tb u }
  else
    let plotOut :=
      if sp && !plotsSaved.isEmpty then
        pr ("\nPlots saved to files: " ++ pyJoin ", " plotsSaved)
      else ""
    let out := headerOut ++ bodyOut u ++ plotOut
    let err := bodyErr tb u
    { reachedFooter := true
      stdoutIsOriginal := true
      stderrIsOriginal := true
      importIsOriginal := true
      openIsOriginal := true
      emitted := pr out ++ (if err ≠ "" then pr err else "")
      capturedOut := out
      capturedErr := err }

example : (runSandbox true "" (.raisesBase "SystemExit" "" "") "" []).reachedFooter = false := by
  decide
example : (runSandbox true "" (.raisesExc "ValueError" "boom" "x\n" "") "tb" []).reachedFooter
    = true := by decide

/-! ## Concrete instances used by counterexamples and witnesses -/

/-- Whitespace-only request used to witness C8. -/
def wsReq : Request := ⟨"   \n", none, true⟩

/-- Ordinary request used to witness C9 and C10. -/
def demoReq : Request := ⟨"print(1)", some (.num 10), true⟩

/-- Request with a non-numeric timeout used to witness C10. -/
def badTimeoutReq : Request := ⟨"print(1)", some (.nonNumeric "soon"), true⟩

/-- An oversized raw output: 10001 identical characters. -/
def bigStr : String := ⟨List.replicate 10001 'a'⟩

/-- Request whose run produces the oversized output. -/
def bigReq : Request := ⟨"x", none, false⟩

/-- Runner returning the oversized output on the child's stdout. -/
def bigRun : ℚ → RunOutcome := fun _ => .completed bigStr "" 0

/-- The content `execute_code` returns for the oversized output. -/
def bigContent : String := truncateOutput bigStr

/-- Runner that reports whether the effective timeout it received was
positive, used to observe the effective timeout from outside. -/
def probeRun : ℚ → RunOutcome :=
  fun t => if 0 < t then .timedOut else .completed "nonpositive" "" 0

/-- A minimal runtime environment: no built-in module names, nothing
resolvable, pip prints nothing. -/
def envNoSpec : PyEnv := ⟨[], "/usr/lib/python3.11", fun _ => .notFound, fun _ _ => ""⟩

/-- A runtime environment in which the underscore-prefixed module
`_distutils_hack` is installed under dist-packages - outside the
standard-library install location - and nothing else resolves. -/
def envUnderscore : PyEnv :=
  ⟨[], "/usr/lib/python3.11",
   fun nm =>
     if nm = "_distutils_hack" then
       .found (some "/usr/local/lib/python3.11/dist-packages/_distutils_hack/__init__.py")
     else .notFound,
   fun _ _ => ""⟩

/-! ## Helper lemmas -/

theorem strAppend_data (s t : String) : (s ++ t).data = s.data ++ t.data := by
  cases s; cases t; rfl

theorem strAppend_assoc (a b c : String) : a ++ b ++ c = a ++ (b ++ c) := by
  cases a; cases b; cases c
  show String.mk _ = String.mk _
  simp [String.append]

theorem isPre_append (l t : List Char) : isPre l (l ++ t) = true := by
  induction l with
  | nil => rfl
  | cons c cs ih => simp [isPre, ih]

theorem listHasSub_self (sub t : List Char) : listHasSub sub (sub ++ t) = true := by
  cases sub with
  | nil => cases t <;> simp [listHasSub, List.isEmpty, isPre]
  | cons c cs => simp [listHasSub, isPre, isPre_append]

theorem listHasSub_append_left (l r sub : List Char) (h : listHasSub sub r = true) :
    listHasSub sub (l ++ r) = true := by
  induction l with
  | nil => simpa using h
  | cons c cs ih => simp [listHasSub, ih]

theorem containsSub_here (nd t : String) : containsSub (nd ++ t) nd = true := by
  simp [containsSub, strAppend_data, listHasSub_self]

theorem containsSub_of_tail (l r nd : String) (h : containsSub r nd = true) :
    containsSub (l ++ r) nd = true := by
  simp only [containsSub, strAppend_data]
  exact listHasSub_append_left _ _ _ h

theorem truncList_length (l : List Char) : (truncList l).length ≤ 10050 := by
  unfold truncList
  split
  · simp only [List.length_append, List.length_take]
    have : noticeStr.data.length = 50 := by decide
    omega
  · omega

theorem truncList_ne_nil (l : List Char) (h : l ≠ []) : truncList l ≠ [] := by
  unfold truncList
  split
  · intro hc
    have := congrArg List.length hc
    simp only [List.length_append, List.length_take, List.length_nil] at this
    have h50 : noticeStr.data.length = 50 := by decide
    omega
  · exact h

theorem listHasSub_truncList (nd rest : List Char) (h : nd.length ≤ 10000) :
    listHasSub nd (truncList (nd ++ rest)) = true := by
  unfold truncList
  split
  · rw [List.take_append_eq_append_take, List.take_of_length_le h, List.append_assoc]
    exact listHasSub_self _ _
  · exact listHasSub_self _ _

theorem containsSub_trunc (nd t : String) (h : nd.length ≤ 10000) :
    containsSub (truncateOutput (nd ++ t)) nd = true := by
  simp only [containsSub, truncateOutput, strAppend_data]
  exact listHasSub_truncList _ _ h

theorem truncateOutput_ne_empty (s : String) (h : s ≠ "") : truncateOutput s ≠ "" := by
  intro hc
  apply truncList_ne_nil s.data
  · intro hd
    apply h
    cases s
    simp_all
  · cases s
    simp only [truncateOutput] at hc
    exact congrArg String.data hc

theorem truncateOutput_length (s : String) : (truncateOutput s).length ≤ 10050 :=
  truncList_length s.data

/-- Reduction helper: once the timeout conversion succeeds with value
`q`, `execute_code` is the empty-code check followed by the outcome
mapping at effective timeout `clampTimeout q`. -/
theorem execute_code_reduce (req : Request) (run : ℚ → RunOutcome) (q : ℚ)
    (ht : floatOf (req.timeout.getD (.num 20)) = .ok q) :
    execute_code req run =
      if pyStrip req.code = "" then .ok ("Error: No code provided to execute.", none)
      else match run (clampTimeout q) with
        | .completed out err plots =>
            .ok (truncateOutput (processOutput out err plots req.save_plots), none)
        | .timedOut => .ok ("Error: Code execution timed out.", none)
        | .failed msg => .ok ("", some ("Error executing code: " ++ msg)) := by
  unfold execute_code
  rw [ht]

/-! ## Claim C8 -/

/-- C8: a request whose code is empty or whitespace-only (and whose
timeout field, as the invocation contract declares, is absent or
numeric) short-circuits: the content is exactly
`"Error: No code provided to execute."`, the error is absent, the
result does not depend on the process runner at all, and no temporary
directory is created and no process spawned. -/
theorem empty_code_short_circuit (req : Request) (runA runB : ℚ → RunOutcome) (q : ℚ)
    (hcode : pyStrip req.code = "") (ht : floatOf (req.timeout.getD (.num 20)) = .ok q) :
    execute_code req runA = .ok ("Error: No code provided to execute.", none)
    ∧ execute_code req runA = execute_code req runB
    ∧ execute_code_spawns req = false := by
  rw [execute_code_reduce req runA q ht, execute_code_reduce req runB q ht]
  unfold execute_code_spawns
  rw [ht]
  simp [hcode]

/-- Witness for C8 at a concrete whitespace-only request. -/
theorem empty_code_short_circuit_witness :
    execute_code wsReq (fun _ => .timedOut) = .ok ("Error: No code provided to execute.", none)
    ∧ execute_code wsReq (fun _ => .timedOut) = execute_code wsReq (fun _ => .failed "x")
    ∧ execute_code_spawns wsReq = false :=
  empty_code_short_circuit wsReq (fun _ => .timedOut) (fun _ => .failed "x") 20 (by decide) rfl

/-! ## Claim C9 -/

/-- C9: for a non-empty request, a child-process timeout maps to the
fixed content `"Error: Code execution timed out."` with no failure
descriptor, and a failure of the runner itself maps to empty content
with a failure descriptor prefixed `"Error executing code: "`. -/
theorem outcome_mapping (req : Request) (run : ℚ → RunOutcome) (q : ℚ)
    (hcode : pyStrip req.code ≠ "") (ht : floatOf (req.timeout.getD (.num 20)) = .ok q) :
    (run (clampTimeout q) = .timedOut →
      execute_code req run = .ok ("Error: Code execution timed out.", none))
    ∧ ∀ msg, run (clampTimeout q) = .failed msg →
      execute_code req run = .ok ("", some ("Error executing code: " ++ msg)) := by
  rw [execute_code_reduce req run q ht]
  constructor
  · intro hr
    simp [hcode, hr]
  · intro msg hr
    simp [hcode, hr]

/-- Witness for C9 at a concrete request, once against a timing-out
runner and once against a failing runner. -/
theorem outcome_mapping_witness :
    execute_code demoReq (fun _ => .timedOut) = .ok ("Error: Code execution timed out.", none)
    ∧ execute_code demoReq (fun _ => .failed "boom")
        = .ok ("", some ("Error executing code: " ++ "boom")) :=
  ⟨(outcome_mapping demoReq (fun _ => .timedOut) 10 (by decide) rfl).1 rfl,
   (outcome_mapping demoReq (fun _ => .failed "boom") 10 (by decide) rfl).2 "boom" rfl⟩

/-! ## Claim C10 -/

/-- C10: a request whose timeout field is present but not convertible
to a number makes `execute_code` raise out of the subsystem boundary
(the `float` conversion of line 33 runs before the guarded `try`
block), for every code field and runner; no temporary directory is
created and no process spawned. -/
theorem nonnumeric_timeout_raises (req : Request) (s : String) (run : ℚ → RunOutcome)
    (h : req.timeout = some (.nonNumeric s)) :
    execute_code req run = .error ("ValueError: could not convert string to float: " ++ s)
    ∧ execute_code_spawns req = false := by
  unfold execute_code execute_code_spawns
  rw [h]
  exact ⟨rfl, rfl⟩

/-- Witness for C10 at a concrete request with timeout `"soon"`. -/
theorem nonnumeric_timeout_raises_witness :
    execute_code badTimeoutReq (fun _ => .timedOut)
      = .error ("ValueError: could not convert string to float: " ++ "soon")
    ∧ execute_code_spawns badTimeoutReq = false :=
  nonnumeric_timeout_raises badTimeoutReq "soon" (fun _ => .timedOut) rfl

/-! ## Claim C1 -/

/-- Counterexample to C1: in the default configuration
(`enable_file_write = True`, line 230) the open entry point is not
replaced, so an open request with write mode `"w"` behaves as the
original open: a usable handle is returned, no security diagnostic is
emitted, and the file is created on disk. -/
theorem write_guard_default_off_cex :
    enable_file_write = true
    ∧ sandboxOpen "data.txt" "w" = original_open "data.txt" "w"
    ∧ (sandboxOpen "data.txt" "w").handleReturned = true
    ∧ (sandboxOpen "data.txt" "w").fileCreated = true
    ∧ (sandboxOpen "data.txt" "w").out = "" := by
  decide

/-- C1 as amended: when the write guard is active
(`ENABLE_FILE_WRITE` false), `safe_open` refuses every open whose mode
contains `w`, `a` or `+` - no handle, a security diagnostic, no file
created - and passes every other open through to the original open
unchanged; but in the default configuration the guard is inactive and
the open entry point is exactly the original open. -/
theorem write_guard_behavior :
    (∀ file mode, isWriteMode mode = true →
      safe_open file mode =
        ⟨false, pr "SecurityError: Writing to files is not allowed", false⟩)
    ∧ (∀ file mode, isWriteMode mode = false →
      safe_open file mode = original_open file mode)
    ∧ sandboxOpen = original_open := by
  refine ⟨fun file mode h => ?_, fun file mode h => ?_, rfl⟩
  · simp [safe_open, h]
  · simp [safe_open, h]

/-- Witness for C1 as amended, at mode `"w"` (refused by the guard)
and mode `"r"` (passed through). -/
theorem write_guard_behavior_witness :
    safe_open "notes.txt" "w" =
      ⟨false, pr "SecurityError: Writing to files is not allowed", false⟩
    ∧ safe_open "notes.txt" "r" = original_open "notes.txt" "r" :=
  ⟨write_guard_behavior.1 "notes.txt" "w" (by decide),
   write_guard_behavior.2.1 "notes.txt" "r" (by decide)⟩

/-! ## Claim C3 -/

/-- Counterexample to C3: a caller interruption that raises a
non-`Exception` `BaseException` - exactly what `exit()` does via
`SystemExit` - is not caught by the `except Exception` clause of
line 516, so the footer is never reached and the redirected streams
and the import hook are left in place. -/
theorem exit_skips_footer_cex :
    (runSandbox true "" (.raisesBase "SystemExit" "" "") "" []).reachedFooter = false
    ∧ (runSandbox true "" (.raisesBase "SystemExit" "" "") "" []).stdoutIsOriginal = false
    ∧ (runSandbox true "" (.raisesBase "SystemExit" "" "") "" []).stderrIsOriginal = false
    ∧ (runSandbox true "" (.raisesBase "SystemExit" "" "") "" []).importIsOriginal = false := by
  decide

/-- C3 as amended: for normal completion and for every exception
deriving from `Exception`, the run reaches the footer and restores the
original stdout, stderr, import entry point and open entry point; a
`BaseException` interruption such as `exit()` escapes this guarantee. -/
theorem sandbox_footer_restores (sp : Bool) (headerOut : String) (u : UserRun)
    (tb : String) (plotsSaved : List String) (h : isBaseInterrupt u = false) :
    (runSandbox sp headerOut u tb plotsSaved).reachedFooter = true
    ∧ (runSandbox sp headerOut u tb plotsSaved).stdoutIsOriginal = true
    ∧ (runSandbox sp headerOut u tb plotsSaved).stderrIsOriginal = true
    ∧ (runSandbox sp headerOut u tb plotsSaved).importIsOriginal = true
    ∧ (runSandbox sp headerOut u tb plotsSaved).openIsOriginal = true := by
  unfold runSandbox
  simp [h]

/-- Witness for C3 as amended: a normally completing run and a run
raising a caught `ValueError` both reach the footer restored. -/
theorem sandbox_footer_restores_witness :
    (runSandbox true "" (.normal "hi" "") "" []).reachedFooter = true
    ∧ (runSandbox false "" (.raisesExc "ValueError" "boom" "" "") "tb" []).reachedFooter
        = true :=
  ⟨(sandbox_footer_restores true "" (.normal "hi" "") "" [] (by decide)).1,
   (sandbox_footer_restores false "" (.raisesExc "ValueError" "boom" "" "") "tb" []
      (by decide)).1⟩

/-! ## Claim C5 -/

theorem dropWhile_replicate_a (n : Nat) :
    (List.replicate n 'a').dropWhile Char.isWhitespace = List.replicate n 'a' := by
  cases n with
  | zero => rfl
  | succ m => rw [List.replicate_succ, List.dropWhile_cons, if_neg (by decide)]

theorem pyStrip_bigStr : pyStrip bigStr = bigStr := by
  simp only [pyStrip, bigStr]
  rw [dropWhile_replicate_a, List.reverse_replicate, dropWhile_replicate_a,
    List.reverse_replicate]

theorem bigStr_data_length : bigStr.data.length = 10001 := by
  show (List.replicate 10001 'a').length = 10001
  rw [List.length_replicate]

theorem bigStr_ne_empty : bigStr ≠ "" := by
  intro h
  have h0 : bigStr.data.length = 0 := by
    rw [h]
    rfl
  rw [bigStr_data_length] at h0
  exact absurd h0 (by omega)

theorem bigStr_length_gt : 10000 < bigStr.length := by
  show 10000 < bigStr.data.length
  rw [bigStr_data_length]
  omega

/-- Shared evaluation: on the oversized output, `execute_code` returns
`bigContent` as its content with no failure descriptor. -/
theorem bigRun_eval : execute_code bigReq bigRun = .ok (bigContent, none) := by
  rw [execute_code_reduce bigReq bigRun 20 rfl, if_neg (by decide)]
  show Except.ok (truncateOutput (processOutput bigStr "" 0 false), none) = _
  simp only [processOutput]
  rw [if_pos bigStr_ne_empty, if_neg (by simp), if_neg (by simp), pyStrip_bigStr]
  rfl

/-- Counterexample to C5: on a 10001-character raw output the returned
content is strictly longer than 10000 characters (10050: the first
10000 characters plus the 50-character truncation notice), so content
does not stay within the claimed 10000-character maximum. -/
theorem truncated_content_exceeds_cex :
    execute_code bigReq bigRun = .ok (bigContent, none) ∧ 10000 < bigContent.length := by
  refine ⟨bigRun_eval, ?_⟩
  show 10000 < (truncList bigStr.data).length
  unfold truncList
  rw [if_pos (by rw [bigStr_data_length]; omega)]
  have h50 : noticeStr.data.length = 50 := by decide
  simp only [List.length_append, List.length_take, bigStr_data_length, h50]
  omega

/-- C5 as amended: the returned content never exceeds 10050 characters
(10000 plus the 50-character truncation notice); a raw output longer
than 10000 characters is replaced by exactly its first 10000
characters with the fixed notice appended verbatim, giving exactly
10050 characters; and truncation is deterministic. -/
theorem content_length_bounded :
    (∀ req run c e, execute_code req run = .ok (c, e) → c.length ≤ 10050)
    ∧ (∀ s : String, 10000 < s.length →
        truncateOutput s = ⟨s.data.take 10000⟩ ++ noticeStr
        ∧ (truncateOutput s).length = 10050)
    ∧ (∀ s : String, truncateOutput s = truncateOutput s) := by
  refine ⟨?_, ?_, fun s => rfl⟩
  · intro req run c e h
    cases ht : floatOf (req.timeout.getD (.num 20)) with
    | error msg =>
      have he : execute_code req run = .error msg := by
        unfold execute_code
        rw [ht]
      rw [he] at h
      exact Except.noConfusion h
    | ok q =>
      rw [execute_code_reduce req run q ht] at h
      split at h
      · simp only [Except.ok.injEq, Prod.mk.injEq] at h
        rw [← h.1]
        decide
      · split at h <;> simp only [Except.ok.injEq, Prod.mk.injEq] at h <;> rw [← h.1]
        · exact truncateOutput_length _
        · decide
        · decide
  · intro s hs
    have hd : 10000 < s.data.length := hs
    constructor
    · show String.mk (truncList s.data) = _
      unfold truncList
      rw [if_pos hd]
      rfl
    · show (truncList s.data).length = 10050
      unfold truncList
      rw [if_pos hd]
      have h50 : noticeStr.data.length = 50 := by decide
      simp only [List.length_append, List.length_take, h50]
      omega

/-- Witness for C5 as amended at the oversized concrete output. -/
theorem content_length_bounded_witness :
    bigContent.length ≤ 10050
    ∧ truncateOutput bigStr = ⟨bigStr.data.take 10000⟩ ++ noticeStr :=
  ⟨content_length_bounded.1 bigReq bigRun bigContent none bigRun_eval,
   (content_length_bounded.2.1 bigStr bigStr_length_gt).1⟩

/-! ## Claim C6 -/

/-- Counterexample to C6: a request with timeout 0 is legal under the
invocation contract, and its effective timeout is `min(0, 40) = 0`,
which does not lie in the claimed inclusive range (0, 40]; the
nonpositive value really reaches the process runner. -/
theorem timeout_zero_escapes_cex :
    clampTimeout 0 = 0
    ∧ ¬(0 < clampTimeout 0)
    ∧ execute_code ⟨"x", some (.num 0), false⟩ probeRun = .ok ("nonpositive", none) := by
  refine ⟨by decide, by decide, ?_⟩
  rw [execute_code_reduce ⟨"x", some (.num 0), false⟩ probeRun 0 rfl, if_neg (by decide)]
  show (match probeRun (clampTimeout 0) with
    | .completed out err plots => Except.ok (truncateOutput (processOutput out err plots false), none)
    | .timedOut => Except.ok ("Error: Code execution timed out.", none)
    | .failed msg => Except.ok ("", some ("Error executing code: " ++ msg))) = _
  have hp : probeRun (clampTimeout 0) = .completed "nonpositive" "" 0 := by
    unfold probeRun
    rw [if_neg (by decide)]
  rw [hp]
  rfl

/-- C6 as amended: the effective timeout is `min(requested, 40)` (with
default 20 when absent), hence never above 40, and lies in (0, 40]
whenever the requested timeout is positive - but the code applies no
lower clamp, so a nonpositive request escapes that range; a request
with timeout 100 behaves identically to one with timeout 40. -/
theorem effective_timeout_clamp :
    (∀ q : ℚ, clampTimeout q = min q 40)
    ∧ (∀ q : ℚ, clampTimeout q ≤ 40)
    ∧ (∀ q : ℚ, 0 < q → 0 < clampTimeout q ∧ clampTimeout q ≤ 40)
    ∧ (∀ code sp run, execute_code ⟨code, none, sp⟩ run
        = execute_code ⟨code, some (.num 20), sp⟩ run)
    ∧ (∀ code sp run, execute_code ⟨code, some (.num 100), sp⟩ run
        = execute_code ⟨code, some (.num 40), sp⟩ run) := by
  refine ⟨fun q => rfl, fun q => min_le_right q 40,
    fun q hq => ⟨lt_min hq (by norm_num), min_le_right q 40⟩,
    fun code sp run => rfl, fun code sp run => ?_⟩
  rw [execute_code_reduce ⟨code, some (.num 100), sp⟩ run 100 rfl,
    execute_code_reduce ⟨code, some (.num 40), sp⟩ run 40 rfl]
  have h : clampTimeout 100 = clampTimeout 40 := by decide
  rw [h]

/-- Witness for C6 as amended at requested timeout 3. -/
theorem effective_timeout_clamp_witness :
    0 < clampTimeout 3 ∧ clampTimeout 3 ≤ 40 :=
  effective_timeout_clamp.2.2.1 3 (by norm_num)

/-! ## Claim C2 -/

/-- Counterexample to C2 as stated: `secure_import` permits the load
of `_distutils_hack`, whose top-level name is neither part of the
standard library in the spec's sense (not a built-in name, and its
resolved path lies under dist-packages, not under the
standard-library install location) nor in the allow-list - the
underscore rule of line 259 admits it unconditionally. -/
theorem underscore_import_loads_cex :
    (secure_import envUnderscore "_distutils_hack" 0 none).2 = .loaded "_distutils_hack"
    ∧ spec_standard_library envUnderscore "_distutils_hack" = false
    ∧ ALLOWED_PACKAGES.contains "_distutils_hack" = false := by
  decide

/-- C2 as amended: every import routed through the replaced
`builtins.__import__` entry point is checked by `secure_import`, which
permits a load only when the derived top-level name passes the code's
standard-library heuristic or the allow-list (and loads exactly the
requested name); but that heuristic over-approximates the standard
library: in every environment, every underscore-prefixed top-level
name passes it, wherever the name resolves. -/
theorem secure_import_policy_total :
    (∀ (env : PyEnv) (name : String) (level : Nat) (gpkg : Option (Option String))
      (ldname : String),
      (secure_import env name level gpkg).2 = .loaded ldname →
      ldname = name
      ∧ (is_standard_library env (get_top_level_package (relImportName name level gpkg))
           = true
         ∨ ALLOWED_PACKAGES.contains (get_top_level_package (relImportName name level gpkg))
             = true))
    ∧ ∀ (env : PyEnv) (pkg : String), pyStartsWith pkg "_" = true →
        is_standard_library env pkg = true := by
  constructor
  · intro env name level gpkg ldname h
    simp only [secure_import] at h
    split at h
    · exact ImportResult.noConfusion h
    · split at h
      next hstd =>
        refine ⟨?_, Or.inl hstd⟩
        have h2 : ImportResult.loaded name = .loaded ldname := h
        exact (ImportResult.loaded.inj h2).symm
      next hnstd =>
        split at h
        next halw =>
          refine ⟨?_, Or.inr halw⟩
          have h2 : ImportResult.loaded name = .loaded ldname := h
          exact (ImportResult.loaded.inj h2).symm
        next hnalw =>
          split at h
          · exact ImportResult.noConfusion h
          · exact ImportResult.noConfusion h
  · intro env pkg h
    unfold is_standard_library
    rw [if_pos h]

/-- Witness for C2 as amended: the load of `numpy` that
`secure_import` permits under `envNoSpec` is covered by the policy
disjunction, and the underscore over-approximation fires on
`_distutils_hack`. -/
theorem secure_import_policy_total_witness :
    ("numpy" = "numpy"
     ∧ (is_standard_library envNoSpec (get_top_level_package (relImportName "numpy" 0 none))
          = true
        ∨ ALLOWED_PACKAGES.contains (get_top_level_package (relImportName "numpy" 0 none))
            = true))
    ∧ is_standard_library envUnderscore "_distutils_hack" = true :=
  ⟨secure_import_policy_total.1 envNoSpec "numpy" 0 none "numpy" (by decide),
   secure_import_policy_total.2 envUnderscore "_distutils_hack" (by decide)⟩

/-! ## Claim C7 -/

theorem strAppend_empty (a : String) : a ++ "" = a := by
  cases a
  show String.mk _ = _
  rw [List.append_nil]

theorem strAppend_ne_empty_left (a b : String) (h : a ≠ "") : a ++ b ≠ "" := by
  intro hc
  apply h
  have hd : a.data ++ b.data = [] := congrArg String.data (strAppend_data a b ▸ hc)
  have : a.data = [] := (List.append_eq_nil.mp hd).1
  cases a
  simp_all

theorem contains_trunc_of_decomp (s nd : String) (h : ∃ t, s = nd ++ t)
    (hl : nd.length ≤ 10000) : containsSub (truncateOutput s) nd = true := by
  obtain ⟨t, rfl⟩ := h
  exact containsSub_trunc nd t hl

theorem trunc_ne_empty_of_decomp (s nd : String) (h : ∃ t, s = nd ++ t)
    (hnd : nd ≠ "") : truncateOutput s ≠ "" := by
  obtain ⟨t, rfl⟩ := h
  exact truncateOutput_ne_empty _ (strAppend_ne_empty_left nd t hnd)

/-- When the captured stdout is empty, the assembled content is the
`"(No output)"` marker followed by the (possibly empty) stderr block
and plot notice. -/
theorem processOutput_empty_decomp (stderr : String) (plots : Nat) (sp : Bool) :
    ∃ t, processOutput "" stderr plots sp = "(No output)" ++ t := by
  simp only [processOutput, ne_eq, not_true_eq_false, if_false, reduceIte]
  split
  · split
    · exact ⟨"\n\nErrors:\n" ++ (pyStrip stderr ++ ("\n\n" ++
        (toString plots ++ " plot(s) were generated."))), by simp only [strAppend_assoc]⟩
    · exact ⟨"\n\n" ++ (toString plots ++ " plot(s) were generated."),
        by simp only [strAppend_assoc]⟩
  · split
    · exact ⟨"\n\nErrors:\n" ++ pyStrip stderr, by simp only [strAppend_assoc]⟩
    · exact ⟨"", (strAppend_empty _).symm⟩

/-- C7: whenever the child's stdout is empty, the returned content is
the `"(No output)"` marker (followed by the stderr block and plot
notice), in particular it contains the marker and is never the empty
string; and `execute_code` really returns exactly that assembled
content for a successful run with empty stdout. -/
theorem empty_stdout_marker :
    (∀ (stderr : String) (plots : Nat) (sp : Bool),
      containsSub (truncateOutput (processOutput "" stderr plots sp)) "(No output)" = true
      ∧ truncateOutput (processOutput "" stderr plots sp) ≠ "")
    ∧ ∀ req run q stderr plots,
        pyStrip req.code ≠ "" →
        floatOf (req.timeout.getD (.num 20)) = .ok q →
        run (clampTimeout q) = .completed "" stderr plots →
        execute_code req run
          = .ok (truncateOutput (processOutput "" stderr plots req.save_plots), none) := by
  constructor
  · intro stderr plots sp
    refine ⟨contains_trunc_of_decomp _ _ (processOutput_empty_decomp stderr plots sp)
      (by decide), trunc_ne_empty_of_decomp _ _ (processOutput_empty_decomp stderr plots sp)
      (by decide)⟩
  · intro req run q stderr plots hcode ht hr
    rw [execute_code_reduce req run q ht, if_neg hcode, hr]

/-- Witness for C7: a run with empty stdout, empty stderr and no plots
yields exactly the truncated marker content. -/
theorem empty_stdout_marker_witness :
    execute_code demoReq (fun _ => .completed "" "" 0)
      = .ok (truncateOutput (processOutput "" "" 0 true), none) :=
  empty_stdout_marker.2 demoReq (fun _ => .completed "" "" 0) 10 "" 0 (by decide) rfl rfl

/-! ## Claim C4 -/

theorem blockedImportMsg_decomp (p fn : String) :
    blockedImportMsg p fn
      = "Blocked import" ++ (": \x27" ++ (p ++ ("\x27 (from \x27" ++ (fn ++ "\x27)")))) := by
  unfold blockedImportMsg
  rw [show ("Blocked import: \x27" : String) = "Blocked import" ++ ": \x27" from rfl]
  simp only [strAppend_assoc]

theorem emitted_contains_blocked (sp : Bool) (headerOut p fn uout uerr tb : String)
    (plotsSaved : List String) :
    containsSub (runSandbox sp headerOut
        (.raisesExc "ImportError" (blockedImportMsg p fn) uout uerr) tb plotsSaved).emitted
      "Blocked import" = true := by
  simp only [runSandbox, isBaseInterrupt, Bool.false_eq_true, if_false, reduceIte]
  simp only [bodyOut, pr, blockedImportMsg_decomp, strAppend_assoc]
  repeat
    first
    | exact containsSub_here _ _
    | apply containsSub_of_tail

/-- Counterexample to C4 as stated and to its first amendment: on a
concrete blocked import the pre-raise diagnostic goes to the captured
standard output while the captured standard error receives nothing
from `secure_import`; and the requested name `org.python.core`, whose
top-level name `org` is neither standard-library nor allow-listed, is
special-cased to a silent `None` - no diagnostic, no `ImportError`,
hence no `"Blocked import"` in the output. -/
theorem blocked_import_stderr_cex :
    (secure_import envNoSpec "evilnet" 0 none).2 = .blocked "evilnet" "evilnet"
    ∧ (secure_import envNoSpec "evilnet" 0 none).1.err = ""
    ∧ containsSub (secure_import envNoSpec "evilnet" 0 none).1.out "SecurityError" = true
    ∧ is_standard_library envNoSpec "org" = false
    ∧ ALLOWED_PACKAGES.contains "org" = false
    ∧ secure_import envNoSpec "org.python.core" 0 none = (⟨"", ""⟩, .returnedNone) := by
  decide

/-- C4 as amended: for every import whose derived top-level name is
non-empty, fails the standard-library heuristic and is not
allow-listed, and whose requested name is not the special-cased
`org.python.core`, `secure_import` prints the security diagnostic to
the captured standard output - the captured standard error receives
nothing - and raises `ImportError("Blocked import: ...")`; the
requested name `org.python.core` instead returns `None` silently with
no diagnostic and no error. The raised `ImportError` derives from
`Exception`, so the run still reaches the footer and the emitted
output contains `"Blocked import"`. -/
theorem blocked_import_reports :
    (∀ (env : PyEnv) (name : String) (level : Nat) (gpkg : Option (Option String)),
      is_standard_library env (get_top_level_package (relImportName name level gpkg)) = false →
      ALLOWED_PACKAGES.contains (get_top_level_package (relImportName name level gpkg)) = false →
      get_top_level_package (relImportName name level gpkg) ≠ "" →
      name ≠ "org.python.core" →
      secure_import env name level gpkg
        = (⟨pr (securityDiag (get_top_level_package (relImportName name level gpkg)) name), ""⟩,
           .blocked (get_top_level_package (relImportName name level gpkg)) name))
    ∧ (∀ (env : PyEnv) (level : Nat) (gpkg : Option (Option String)),
      is_standard_library env
          (get_top_level_package (relImportName "org.python.core" level gpkg)) = false →
      ALLOWED_PACKAGES.contains
          (get_top_level_package (relImportName "org.python.core" level gpkg)) = false →
      get_top_level_package (relImportName "org.python.core" level gpkg) ≠ "" →
      secure_import env "org.python.core" level gpkg = (⟨"", ""⟩, .returnedNone))
    ∧ ∀ (p fn : String) (sp : Bool) (headerOut tb uout uerr : String)
        (plotsSaved : List String),
      (runSandbox sp headerOut (.raisesExc "ImportError" (blockedImportMsg p fn) uout uerr)
          tb plotsSaved).reachedFooter = true
      ∧ containsSub (runSandbox sp headerOut
            (.raisesExc "ImportError" (blockedImportMsg p fn) uout uerr) tb
            plotsSaved).emitted "Blocked import" = true := by
  refine ⟨?_, ?_, ?_⟩
  · intro env name level gpkg htop halw hne horg
    simp only [secure_import]
    rw [if_neg hne, if_neg (by rw [htop]; exact Bool.false_ne_true),
      if_neg (by rw [halw]; exact Bool.false_ne_true), if_neg horg]
  · intro env level gpkg htop halw hne
    simp only [secure_import]
    rw [if_neg hne, if_neg (by rw [htop]; exact Bool.false_ne_true),
      if_neg (by rw [halw]; exact Bool.false_ne_true), if_pos trivial]
  · intro p fn sp headerOut tb uout uerr plotsSaved
    constructor
    · simp [runSandbox, isBaseInterrupt]
    · exact emitted_contains_blocked sp headerOut p fn uout uerr tb plotsSaved

/-- Witness for C4 as amended: the blocked import of `evilnet` (the
diagnostic on the captured stdout, nothing on the captured stderr),
the silent `None` for `org.python.core`, and the completed run whose
output contains `"Blocked import"`. -/
theorem blocked_import_reports_witness :
    secure_import envNoSpec "evilnet" 0 none
      = (⟨pr (securityDiag "evilnet" "evilnet"), ""⟩, .blocked "evilnet" "evilnet")
    ∧ secure_import envNoSpec "org.python.core" 0 none = (⟨"", ""⟩, .returnedNone)
    ∧ (runSandbox true "" (.raisesExc "ImportError" (blockedImportMsg "evilnet" "evilnet")
        (pr (securityDiag "evilnet" "evilnet")) "") "tb" []).reachedFooter = true
    ∧ containsSub (runSandbox true "" (.raisesExc "ImportError"
        (blockedImportMsg "evilnet" "evilnet") (pr (securityDiag "evilnet" "evilnet")) "")
        "tb" []).emitted "Blocked import" = true :=
  ⟨blocked_import_reports.1 envNoSpec "evilnet" 0 none (by decide) (by decide) (by decide)
     (by decide),
   blocked_import_reports.2.1 envNoSpec 0 none (by decide) (by decide) (by decide),
   (blocked_import_reports.2.2 "evilnet" "evilnet" true "" "tb"
      (pr (securityDiag "evilnet" "evilnet")) "" []).1,
   (blocked_import_reports.2.2 "evilnet" "evilnet" true "" "tb"
      (pr (securityDiag "evilnet" "evilnet")) "" []).2⟩
